import Mathlib

/-! Verification of the craft-weapon ammunition core (`src/Savegame/CraftWeapon.cpp`).

The C++ class `CraftWeapon` is embedded shallowly: the mutable object becomes a
structure, each method becomes a function from the old state (plus arguments) to
the new state (plus the returned value).  Machine `int` becomes `Int`; the C++
`/` on nonnegative operands is truncated division, embedded as `Int.tdiv`.
The RNG collaborator `RNG::generate(a, b)` is an oracle `rng : Int → Int → Int`;
the list of calls made to it is returned alongside the result so that theorems
can speak about how many draws a call performs and with which bounds. -/

/-- The clip item of a weapon rule (`RuleItem`): only its clip size is relevant
to the code under verification (`getClipSize`). -/
structure RuleItem where
  clipSize : Int
deriving DecidableEq

/-- Static configuration (`RuleCraftWeapon`): the fields read by
`CraftWeapon.cpp` in the verified methods. -/
structure RuleCraftWeapon where
  wtype : String
  ammoMax : Int
  rearmRate : Int
  useStatisticalBulletSaving : Bool
  clipItem : Option RuleItem
deriving DecidableEq

/-- Mutable state of one craft weapon (`CraftWeapon`): the ruleset reference and
the fields `_ammo`, `_rearming`, `_disabled`. -/
structure CraftWeapon where
  rules : RuleCraftWeapon
  ammo : Int
  rearming : Bool
  disabled : Bool
deriving DecidableEq

namespace CraftWeapon

/-- The constructor `CraftWeapon(rules, ammo)`: initializes `_rearming` and
`_disabled` to `false`. -/
def construct (rules : RuleCraftWeapon) (ammo : Int) : CraftWeapon :=
  { rules := rules, ammo := ammo, rearming := false, disabled := false }

/-- `CraftWeapon::setAmmo(int)`: stores the argument, clamps below at 0
(reporting `false`) and above at `ammoMax` (reporting `true`).  Returns the
new state and the `bool` result. -/
def setAmmo (w : CraftWeapon) (ammo : Int) : CraftWeapon × Bool :=
  if ammo < 0 then ({ w with ammo := 0 }, false)
  else if ammo > w.rules.ammoMax then ({ w with ammo := w.rules.ammoMax }, true)
  else ({ w with ammo := ammo }, true)

/-- `CraftWeapon::isRearming()`: `false` when disabled, otherwise the stored
flag. -/
def isRearming (w : CraftWeapon) : Bool :=
  if w.disabled then false else w.rearming

/-- `CraftWeapon::setRearming(bool)`. -/
def setRearming (w : CraftWeapon) (rearming : Bool) : CraftWeapon :=
  { w with rearming := rearming }

/-- `CraftWeapon::setDisabled(bool)`. -/
def setDisabled (w : CraftWeapon) (disabled : Bool) : CraftWeapon :=
  { w with disabled := disabled }

/-- The local `needed` of `CraftWeapon::rearm` (only computed when
`clipSize > 0`): `min(rearmRate, ammoMax - _ammo + clipSize - 1) / clipSize`
with C++ truncated division. -/
def rearmNeeded (w : CraftWeapon) (clipSize : Int) : Int :=
  (min w.rules.rearmRate (w.rules.ammoMax - w.ammo + clipSize - 1)).tdiv clipSize

/-- The local `ammoUsed` of `CraftWeapon::rearm`: initialized to `rearmRate`
and overwritten by `((needed > available) ? available : needed) * clipSize`
when `clipSize > 0`. -/
def rearmAmmoUsed (w : CraftWeapon) (available clipSize : Int) : Int :=
  if clipSize > 0 then
    (if rearmNeeded w clipSize > available then available else rearmNeeded w clipSize) * clipSize
  else
    w.rules.rearmRate

/-- Result of one `rearm` call: the new state, the returned clip count, the
final value of the local `clipsSaved`, and the trace of `RNG::generate(a, b)`
calls made (as `(a, b)` pairs). -/
structure RearmResult where
  weapon : CraftWeapon
  clipsUsed : Int
  clipsSaved : Int
  rngCalls : List (Int × Int)
deriving DecidableEq

/-- `CraftWeapon::rearm(available, clipSize)`.  The statistical-bullet-saving
block is guarded in the source by `clipSize > 0` and then `clipSize > 1 &&
useStatisticalBulletSaving`; since `clipSize > 1` implies `clipSize > 0` the
two nested guards are embedded as the single condition `1 < clipSize`. -/
def rearm (w : CraftWeapon) (available clipSize : Int) (rng : Int → Int → Int) :
    RearmResult :=
  let ammoUsed := rearmAmmoUsed w available clipSize
  let saving : Int × List (Int × Int) :=
    if 1 < clipSize ∧ w.rules.useStatisticalBulletSaving = true then
      let overusedAmmo := w.ammo + ammoUsed - w.rules.ammoMax
      if overusedAmmo > 0 then
        if rng 0 (clipSize - 1) < overusedAmmo then (1, [(0, clipSize - 1)])
        else (0, [(0, clipSize - 1)])
      else (0, [])
    else (0, [])
  let clipsSaved := saving.1
  let w1 := (setAmmo w (w.ammo + ammoUsed)).1
  let w2 := { w1 with rearming := decide (w1.ammo < w1.rules.ammoMax) }
  { weapon := w2
    clipsUsed := if clipSize ≤ 0 then 0 else ammoUsed.tdiv clipSize - clipsSaved
    clipsSaved := clipsSaved
    rngCalls := saving.2 }

/-- `CraftWeapon::getClipsLoaded()`.  The source computes
`(int)floor((double)_ammo / _rules->getRearmRate())` first, unconditionally;
when `rearmRate = 0` the double division yields an infinity or NaN and the
cast back to `int` is undefined behaviour, embedded as `none`.  For a nonzero
divisor and 32-bit operands the double division is exact enough that the
floor equals `Int.fdiv`.  A configured clip item with positive clip size
overwrites the result with `floor(_ammo / clip.clipSize)`. -/
def getClipsLoaded (w : CraftWeapon) : Option Int :=
  if w.rules.rearmRate = 0 then none
  else
    let retVal := w.ammo.fdiv w.rules.rearmRate
    match w.rules.clipItem with
    | some clip =>
        if clip.clipSize > 0 then some (w.ammo.fdiv clip.clipSize) else some retVal
    | none => some retVal

/-- The persisted record: `type` and `ammo` are always written by `save`;
`rearming` and `disabled` are optional keys. -/
structure WeaponRecord where
  typeKey : Option String
  ammoKey : Option Int
  rearmingKey : Option Bool
  disabledKey : Option Bool
deriving DecidableEq

/-- `CraftWeapon::load`: `tryRead` assigns the field when the key is present
and leaves the current value untouched otherwise. -/
def load (w : CraftWeapon) (reader : WeaponRecord) : CraftWeapon :=
  { w with
    ammo := reader.ammoKey.getD w.ammo
    rearming := reader.rearmingKey.getD w.rearming
    disabled := reader.disabledKey.getD w.disabled }

/-- `CraftWeapon::save`: always writes `type` and `ammo`; writes `rearming`
and `disabled` only when they are `true`. -/
def save (w : CraftWeapon) : WeaponRecord :=
  { typeKey := some w.rules.wtype
    ammoKey := some w.ammo
    rearmingKey := if w.rearming then some w.rearming else none
    disabledKey := if w.disabled then some w.disabled else none }

end CraftWeapon

open CraftWeapon

/-- A concrete weapon used to instantiate theorems: the first concrete
scenario of the spec (`ammoMax = 60`, `rearmRate = 20`, empty, no clip item,
statistical saving off). -/
def wStingray : CraftWeapon :=
  { rules := { wtype := "STR_STINGRAY", ammoMax := 60, rearmRate := 20,
               useStatisticalBulletSaving := false, clipItem := none }
    ammo := 0, rearming := true, disabled := false }

/-- A concrete weapon with `ammo = 10` used to instantiate the
non-clip-based rearm theorem. -/
def wBeam : CraftWeapon :=
  { rules := { wtype := "STR_BEAM", ammoMax := 60, rearmRate := 20,
               useStatisticalBulletSaving := true, clipItem := none }
    ammo := 10, rearming := true, disabled := false }

/-- A concrete weapon with a configured clip item of size 15 and `ammo = 40`,
the `getClipsLoaded` scenario of the spec. -/
def wCannon : CraftWeapon :=
  { rules := { wtype := "STR_CANNON", ammoMax := 60, rearmRate := 20,
               useStatisticalBulletSaving := false, clipItem := some { clipSize := 15 } }
    ammo := 40, rearming := false, disabled := false }

/-- A concrete weapon whose configuration has `rearmRate = 0`, a clip item of
size 15 and `ammo = 40`. -/
def wZeroRate : CraftWeapon :=
  { rules := { wtype := "STR_ZERO", ammoMax := 60, rearmRate := 0,
               useStatisticalBulletSaving := false, clipItem := some { clipSize := 15 } }
    ammo := 40, rearming := false, disabled := false }

/-- A concrete weapon whose configuration has `rearmRate = 0` and no clip
item. -/
def wZeroRateNoClip : CraftWeapon :=
  { rules := { wtype := "STR_ZERO_NOCLIP", ammoMax := 60, rearmRate := 0,
               useStatisticalBulletSaving := false, clipItem := none }
    ammo := 40, rearming := false, disabled := false }

/-- A persisted record carrying no `rearming` and no `disabled` key. -/
def recordBare : WeaponRecord :=
  { typeKey := some "STR_STINGRAY", ammoKey := some 7,
    rearmingKey := none, disabledKey := none }

/-- `setAmmo` stores its clamped argument: the stored value is 0 for a
negative request, `ammoMax` for a request above it, and the request itself
otherwise. -/
lemma setAmmo_ammo_eq (w : CraftWeapon) (a : Int) :
    (setAmmo w a).1.ammo =
      if a < 0 then 0 else if a > w.rules.ammoMax then w.rules.ammoMax else a := by
  unfold setAmmo; split_ifs <;> rfl

/-- `setAmmo` does not touch the configuration reference. -/
lemma setAmmo_rules_eq (w : CraftWeapon) (a : Int) :
    (setAmmo w a).1.rules = w.rules := by
  unfold setAmmo; split_ifs <;> rfl

/-- With a nonnegative `ammoMax`, `setAmmo` always lands in `[0, ammoMax]`,
whatever its argument. -/
lemma setAmmo_range (w : CraftWeapon) (a : Int) (h : 0 ≤ w.rules.ammoMax) :
    0 ≤ (setAmmo w a).1.ammo ∧ (setAmmo w a).1.ammo ≤ w.rules.ammoMax := by
  rw [setAmmo_ammo_eq]; split_ifs <;> omega

/-- The ammo after `rearm` is the ammo after `setAmmo(_ammo + ammoUsed)`. -/
lemma rearm_weapon_ammo_eq (w : CraftWeapon) (available clipSize : Int)
    (rng : Int → Int → Int) :
    (rearm w available clipSize rng).weapon.ammo =
      (setAmmo w (w.ammo + rearmAmmoUsed w available clipSize)).1.ammo := rfl

/-- `rearm` does not touch the configuration reference. -/
lemma rearm_weapon_rules_eq (w : CraftWeapon) (available clipSize : Int)
    (rng : Int → Int → Int) :
    (rearm w available clipSize rng).weapon.rules = w.rules := by
  show (setAmmo w (w.ammo + rearmAmmoUsed w available clipSize)).1.rules = w.rules
  exact setAmmo_rules_eq ..

/-- `rearm` ends by recomputing the stored `rearming` flag from the post-call
ammo. -/
lemma rearm_weapon_rearming_eq (w : CraftWeapon) (available clipSize : Int)
    (rng : Int → Int → Int) :
    (rearm w available clipSize rng).weapon.rearming =
      decide ((rearm w available clipSize rng).weapon.ammo < w.rules.ammoMax) := by
  have h : (rearm w available clipSize rng).weapon.rearming =
      decide ((setAmmo w (w.ammo + rearmAmmoUsed w available clipSize)).1.ammo <
        (setAmmo w (w.ammo + rearmAmmoUsed w available clipSize)).1.rules.ammoMax) := rfl
  rw [h, setAmmo_rules_eq, rearm_weapon_ammo_eq]

/-- Under the ammo invariant and a nonnegative rearm rate, the local `needed`
is nonnegative. -/
lemma rearmNeeded_nonneg (w : CraftWeapon) (clipSize : Int)
    (hammo : w.ammo ≤ w.rules.ammoMax) (hrr : 0 ≤ w.rules.rearmRate) (hclip : 0 < clipSize) :
    0 ≤ rearmNeeded w clipSize := by
  unfold rearmNeeded
  exact Int.tdiv_nonneg (by omega) (by omega)

/-- With no clips available, no ammo is used on a clip-based weapon. -/
lemma rearmAmmoUsed_avail_zero (w : CraftWeapon) (clipSize : Int)
    (hammo : w.ammo ≤ w.rules.ammoMax) (hrr : 0 ≤ w.rules.rearmRate) (hclip : 0 < clipSize) :
    rearmAmmoUsed w 0 clipSize = 0 := by
  have h := rearmNeeded_nonneg w clipSize hammo hrr hclip
  unfold rearmAmmoUsed
  split_ifs with h1 h2 <;> first | omega | (rw [show rearmNeeded w clipSize = 0 by omega]; ring)

/-- For a clip-based weapon, the ammo used is `min(needed, available)` whole
clips. -/
lemma rearmAmmoUsed_pos_clip (w : CraftWeapon) (available clipSize : Int)
    (hclip : 0 < clipSize) :
    rearmAmmoUsed w available clipSize = min (rearmNeeded w clipSize) available * clipSize := by
  unfold rearmAmmoUsed
  rw [if_pos hclip]
  congr 1
  split_ifs <;> omega

/-- The final value of the local `clipsSaved`, as a conditional on the guard
chain of the statistical-bullet-saving block. -/
lemma rearm_clipsSaved_ite (w : CraftWeapon) (available clipSize : Int)
    (rng : Int → Int → Int) :
    (rearm w available clipSize rng).clipsSaved =
      if 1 < clipSize ∧ w.rules.useStatisticalBulletSaving = true then
        (if w.ammo + rearmAmmoUsed w available clipSize - w.rules.ammoMax > 0 then
          (if rng 0 (clipSize - 1) <
              w.ammo + rearmAmmoUsed w available clipSize - w.rules.ammoMax
           then 1 else 0)
         else 0)
      else 0 := by
  show (if 1 < clipSize ∧ w.rules.useStatisticalBulletSaving = true then
      (if w.ammo + rearmAmmoUsed w available clipSize - w.rules.ammoMax > 0 then
        (if rng 0 (clipSize - 1) <
            w.ammo + rearmAmmoUsed w available clipSize - w.rules.ammoMax
         then ((1 : Int), [((0 : Int), clipSize - 1)])
         else (0, [(0, clipSize - 1)]))
       else (0, []))
    else ((0 : Int), ([] : List (Int × Int)))).1 = _
  split_ifs <;> rfl

/-- The trace of RNG calls of one `rearm`, as a conditional on the guard chain
of the statistical-bullet-saving block. -/
lemma rearm_rngCalls_ite (w : CraftWeapon) (available clipSize : Int)
    (rng : Int → Int → Int) :
    (rearm w available clipSize rng).rngCalls =
      if 1 < clipSize ∧ w.rules.useStatisticalBulletSaving = true then
        (if w.ammo + rearmAmmoUsed w available clipSize - w.rules.ammoMax > 0 then
          [(0, clipSize - 1)]
         else [])
      else [] := by
  show (if 1 < clipSize ∧ w.rules.useStatisticalBulletSaving = true then
      (if w.ammo + rearmAmmoUsed w available clipSize - w.rules.ammoMax > 0 then
        (if rng 0 (clipSize - 1) <
            w.ammo + rearmAmmoUsed w available clipSize - w.rules.ammoMax
         then ((1 : Int), [((0 : Int), clipSize - 1)])
         else (0, [(0, clipSize - 1)]))
       else (0, []))
    else ((0 : Int), ([] : List (Int × Int)))).2 = _
  split_ifs <;> rfl

/-- The returned clip count of `rearm`: 0 for a non-clip-based weapon, and
`ammoUsed / clipSize - clipsSaved` otherwise. -/
lemma rearm_clipsUsed_ite (w : CraftWeapon) (available clipSize : Int)
    (rng : Int → Int → Int) :
    (rearm w available clipSize rng).clipsUsed =
      if clipSize ≤ 0 then 0
      else (rearmAmmoUsed w available clipSize).tdiv clipSize -
        (rearm w available clipSize rng).clipsSaved := rfl

/-- `clipsSaved` is always 0 or 1. -/
lemma rearm_clipsSaved_bounds (w : CraftWeapon) (available clipSize : Int)
    (rng : Int → Int → Int) :
    0 ≤ (rearm w available clipSize rng).clipsSaved ∧
      (rearm w available clipSize rng).clipsSaved ≤ 1 := by
  rw [rearm_clipsSaved_ite]
  split_ifs <;> omega

/-- C1: on a clip-based weapon satisfying the ammo invariant, `rearm` computes
`needed = min(rearmRate, ammoMax - ammo + clipSize - 1) / clipSize` by floor
division, takes `clipsToUse = min(needed, available)`, adds
`clipsToUse * clipSize` to the ammo clamped at `ammoMax`, and returns
`clipsToUse` minus at most one statistically saved clip, hence never more than
`available` clips. -/
theorem rearm_clip_accounting (w : CraftWeapon) (available clipSize : Int)
    (rng : Int → Int → Int)
    (hammo0 : 0 ≤ w.ammo) (hammo1 : w.ammo ≤ w.rules.ammoMax) (hav : 0 ≤ available)
    (hclip : 0 < clipSize) (hrr : 0 ≤ w.rules.rearmRate) :
    rearmNeeded w clipSize =
      (min w.rules.rearmRate (w.rules.ammoMax - w.ammo + clipSize - 1)).fdiv clipSize ∧
    rearmAmmoUsed w available clipSize = min (rearmNeeded w clipSize) available * clipSize ∧
    (rearm w available clipSize rng).weapon.ammo =
      min (w.ammo + min (rearmNeeded w clipSize) available * clipSize) w.rules.ammoMax ∧
    (rearm w available clipSize rng).clipsUsed =
      min (rearmNeeded w clipSize) available - (rearm w available clipSize rng).clipsSaved ∧
    0 ≤ (rearm w available clipSize rng).clipsSaved ∧
    (rearm w available clipSize rng).clipsSaved ≤ 1 ∧
    (rearm w available clipSize rng).clipsUsed ≤ available := by
  have hne := rearmNeeded_nonneg w clipSize hammo1 hrr hclip
  have hmin : 0 ≤ min (rearmNeeded w clipSize) available := le_min hne hav
  have hused := rearmAmmoUsed_pos_clip w available clipSize hclip
  have hbounds := rearm_clipsSaved_bounds w available clipSize rng
  have hcu : (rearm w available clipSize rng).clipsUsed =
      min (rearmNeeded w clipSize) available - (rearm w available clipSize rng).clipsSaved := by
    rw [rearm_clipsUsed_ite, if_neg (by omega), hused,
      Int.mul_tdiv_cancel _ (by omega)]
  refine ⟨?_, hused, ?_, hcu, hbounds.1, hbounds.2, by omega⟩
  · unfold rearmNeeded
    rw [Int.tdiv_eq_ediv (by omega) (by omega), Int.fdiv_eq_ediv _ (by omega)]
  · rw [rearm_weapon_ammo_eq, hused, setAmmo_ammo_eq]
    have hprod : 0 ≤ min (rearmNeeded w clipSize) available * clipSize :=
      Int.mul_nonneg hmin (by omega)
    split_ifs <;> omega

/-- Witness for C1 at the concrete spec scenario `ammoMax = 60`,
`rearmRate = 20`, `ammo = 0`, `available = 5`, `clipSize = 10`: the clip count
returned never exceeds the 5 available clips. -/
theorem rearm_clip_accounting_witness :
    (rearm wStingray 5 10 (fun _ _ => 0)).clipsUsed ≤ 5 :=
  (rearm_clip_accounting wStingray 5 10 (fun _ _ => 0) (by decide) (by decide)
    (by decide) (by decide) (by decide)).2.2.2.2.2.2

/-- C2: the statistical-bullet-saving draw is made exactly when
`clipSize > 1`, the configuration flag is on and
`overusedAmmo = ammo + ammoUsed - ammoMax` is strictly positive; in that case
the single RNG call has bounds `[0, clipSize - 1]` and one clip is saved
exactly when the draw is strictly below `overusedAmmo`; otherwise no call is
made and no clip is saved.  At most one draw and at most one saved clip per
call. -/
theorem rearm_statistical_saving (w : CraftWeapon) (available clipSize : Int)
    (rng : Int → Int → Int) :
    (rearm w available clipSize rng).rngCalls =
      (if 1 < clipSize ∧ w.rules.useStatisticalBulletSaving = true ∧
          0 < w.ammo + rearmAmmoUsed w available clipSize - w.rules.ammoMax
       then [(0, clipSize - 1)] else []) ∧
    (rearm w available clipSize rng).clipsSaved =
      (if (1 < clipSize ∧ w.rules.useStatisticalBulletSaving = true ∧
           0 < w.ammo + rearmAmmoUsed w available clipSize - w.rules.ammoMax) ∧
          rng 0 (clipSize - 1) <
            w.ammo + rearmAmmoUsed w available clipSize - w.rules.ammoMax
       then 1 else 0) ∧
    (rearm w available clipSize rng).rngCalls.length ≤ 1 ∧
    (rearm w available clipSize rng).clipsSaved ≤ 1 := by
  have hs := rearm_clipsSaved_ite w available clipSize rng
  have hr := rearm_rngCalls_ite w available clipSize rng
  refine ⟨?_, ?_, ?_, (rearm_clipsSaved_bounds w available clipSize rng).2⟩
  · rw [hr]; split_ifs <;> simp_all
  · rw [hs]; split_ifs <;> simp_all
  · rw [hr]; split_ifs <;> simp

/-- C3: `setAmmo` clamps into `[0, ammoMax]`: a negative request stores 0 and
reports `false`; a request above `ammoMax` stores `ammoMax` and reports
`true`; otherwise the request is stored exactly and `true` is reported; the
`rearming` and `disabled` flags (and the rules) are unchanged in every case. -/
theorem setAmmo_clamps_and_reports (w : CraftWeapon) (newAmmo : Int) :
    (setAmmo w newAmmo).1.ammo =
      (if newAmmo < 0 then 0
       else if newAmmo > w.rules.ammoMax then w.rules.ammoMax else newAmmo) ∧
    (setAmmo w newAmmo).2 = decide (0 ≤ newAmmo) ∧
    (setAmmo w newAmmo).1.rearming = w.rearming ∧
    (setAmmo w newAmmo).1.disabled = w.disabled ∧
    (setAmmo w newAmmo).1.rules = w.rules := by
  unfold setAmmo
  split_ifs with h1 h2 <;> simp <;> omega

/-- C4: with a nonnegative `ammoMax` and the ammo invariant holding, both
`setAmmo` (any argument) and `rearm` (any nonnegative `available`, any
`clipSize`, any RNG) leave the ammo in `[0, ammoMax]`. -/
theorem ammo_invariant_preserved (w : CraftWeapon) (newAmmo available clipSize : Int)
    (rng : Int → Int → Int)
    (hmax : 0 ≤ w.rules.ammoMax)
    (hammo0 : 0 ≤ w.ammo) (hammo1 : w.ammo ≤ w.rules.ammoMax) (hav : 0 ≤ available) :
    (0 ≤ (setAmmo w newAmmo).1.ammo ∧ (setAmmo w newAmmo).1.ammo ≤ w.rules.ammoMax) ∧
    (0 ≤ (rearm w available clipSize rng).weapon.ammo ∧
      (rearm w available clipSize rng).weapon.ammo ≤ w.rules.ammoMax) := by
  refine ⟨setAmmo_range w newAmmo hmax, ?_⟩
  rw [rearm_weapon_ammo_eq]
  exact setAmmo_range w _ hmax

/-- Witness for C4 at the concrete scenario: rearming the empty weapon with 5
clips of 10 keeps the ammo inside `[0, 60]`. -/
theorem ammo_invariant_preserved_witness :
    0 ≤ (rearm wStingray 5 10 (fun _ _ => 0)).weapon.ammo ∧
    (rearm wStingray 5 10 (fun _ _ => 0)).weapon.ammo ≤ wStingray.rules.ammoMax :=
  (ammo_invariant_preserved wStingray (-5) 5 10 (fun _ _ => 0) (by decide) (by decide)
    (by decide) (by decide)).2

/-- C5: with `clipSize ≤ 0`, `rearm` adds exactly `rearmRate` ammo (clamped at
`ammoMax`), makes no RNG draw, saves no clip and returns 0 clips used, for
every `available`. -/
theorem rearm_nonclip (w : CraftWeapon) (available clipSize : Int) (rng : Int → Int → Int)
    (hclip : clipSize ≤ 0) (hammo : 0 ≤ w.ammo) (hrr : 0 ≤ w.rules.rearmRate) :
    (rearm w available clipSize rng).weapon.ammo
        = min (w.ammo + w.rules.rearmRate) w.rules.ammoMax ∧
    (rearm w available clipSize rng).clipsUsed = 0 ∧
    (rearm w available clipSize rng).rngCalls = [] ∧
    (rearm w available clipSize rng).clipsSaved = 0 := by
  have hau : rearmAmmoUsed w available clipSize = w.rules.rearmRate := by
    unfold rearmAmmoUsed; rw [if_neg (by omega)]
  refine ⟨?_, ?_, ?_, ?_⟩
  · rw [rearm_weapon_ammo_eq, hau, setAmmo_ammo_eq]
    split_ifs <;> omega
  · show (if clipSize ≤ 0 then 0 else _) = 0
    rw [if_pos hclip]
  · rw [rearm_rngCalls_ite, if_neg (by omega)]
  · rw [rearm_clipsSaved_ite, if_neg (by omega)]

/-- Witness for C5 at `clipSize = 0`, `available = 7`, `ammo = 10`,
`rearmRate = 20`: the call restores exactly the rearm rate and uses no clip
and no RNG draw. -/
theorem rearm_nonclip_witness :
    (rearm wBeam 7 0 (fun _ _ => 0)).weapon.ammo
        = min (wBeam.ammo + wBeam.rules.rearmRate) wBeam.rules.ammoMax ∧
    (rearm wBeam 7 0 (fun _ _ => 0)).clipsUsed = 0 ∧
    (rearm wBeam 7 0 (fun _ _ => 0)).rngCalls = [] ∧
    (rearm wBeam 7 0 (fun _ _ => 0)).clipsSaved = 0 :=
  rearm_nonclip wBeam 7 0 (fun _ _ => 0) (by decide) (by decide) (by decide)

/-- C6: a disabled weapon never reports as rearming, an enabled one reports
its stored flag, and `setDisabled` never overwrites the stored `rearming`
value (nor the ammo). -/
theorem isRearming_masked_by_disabled (w : CraftWeapon) (b : Bool) :
    isRearming w = (if w.disabled then false else w.rearming) ∧
    (setDisabled w b).rearming = w.rearming ∧
    (setDisabled w b).ammo = w.ammo := by
  refine ⟨rfl, rfl, rfl⟩

/-- C7: after any `rearm` the stored `rearming` flag equals `ammo < ammoMax`
for the post-call ammo; and with `available = 0` on a clip-based weapon
satisfying the ammo invariant, no ammo is used, the ammo is unchanged and
`rearming` reflects whether the old ammo is still below `ammoMax`. -/
theorem rearm_sets_rearming (w : CraftWeapon) (availableA clipSizeA clipSize : Int)
    (rngA rng : Int → Int → Int)
    (havA : 0 ≤ availableA)
    (hammo0 : 0 ≤ w.ammo) (hammo1 : w.ammo ≤ w.rules.ammoMax)
    (hrr : 0 ≤ w.rules.rearmRate) (hclip : 0 < clipSize) :
    (rearm w availableA clipSizeA rngA).weapon.rearming
        = decide ((rearm w availableA clipSizeA rngA).weapon.ammo < w.rules.ammoMax) ∧
    rearmAmmoUsed w 0 clipSize = 0 ∧
    (rearm w 0 clipSize rng).weapon.ammo = w.ammo ∧
    (rearm w 0 clipSize rng).weapon.rearming = decide (w.ammo < w.rules.ammoMax) := by
  have h0 := rearmAmmoUsed_avail_zero w clipSize hammo1 hrr hclip
  have hA : (rearm w 0 clipSize rng).weapon.ammo = w.ammo := by
    rw [rearm_weapon_ammo_eq, h0, setAmmo_ammo_eq]
    split_ifs <;> omega
  refine ⟨rearm_weapon_rearming_eq .., h0, hA, ?_⟩
  rw [rearm_weapon_rearming_eq, hA]

/-- Witness for C7 at the concrete scenario: rearming the empty weapon with
no clips available leaves the ammo at 0 and the `rearming` flag set. -/
theorem rearm_sets_rearming_witness :
    (rearm wStingray 0 10 (fun _ _ => 0)).weapon.ammo = wStingray.ammo ∧
    (rearm wStingray 0 10 (fun _ _ => 0)).weapon.rearming
        = decide (wStingray.ammo < wStingray.rules.ammoMax) :=
  ⟨(rearm_sets_rearming wStingray 5 10 10 (fun _ _ => 0) (fun _ _ => 0) (by decide)
      (by decide) (by decide) (by decide) (by decide)).2.2.1,
   (rearm_sets_rearming wStingray 5 10 10 (fun _ _ => 0) (fun _ _ => 0) (by decide)
      (by decide) (by decide) (by decide) (by decide)).2.2.2⟩

/-- C8: saving a state with both flags `false` omits both flag keys; loading
a record with no flag keys into a freshly constructed weapon yields `false`
for both flags; and save followed by load on a freshly constructed weapon
with `ammo = 30` round-trips to the same state. -/
theorem save_load_roundtrip (rules : RuleCraftWeapon) (w : CraftWeapon)
    (reader : WeaponRecord) (a : Int)
    (hr : w.rearming = false) (hd : w.disabled = false)
    (hrk : reader.rearmingKey = none) (hdk : reader.disabledKey = none) :
    (save w).rearmingKey = none ∧
    (save w).disabledKey = none ∧
    (load (construct rules a) reader).rearming = false ∧
    (load (construct rules a) reader).disabled = false ∧
    load (construct rules a) (save (construct rules 30)) = construct rules 30 := by
  refine ⟨?_, ?_, ?_, ?_, ?_⟩
  · simp [save, hr]
  · simp [save, hd]
  · simp [load, construct, hrk]
  · simp [load, construct, hdk]
  · simp [load, save, construct]

/-- Witness for C8 with concrete rules and a record with no flag keys. -/
theorem save_load_roundtrip_witness :
    load (construct wStingray.rules 0) (save (construct wStingray.rules 30))
      = construct wStingray.rules 30 :=
  (save_load_roundtrip wStingray.rules (construct wStingray.rules 30) recordBare 0
    rfl rfl rfl rfl).2.2.2.2

/-- C9 counterexample: with `rearmRate = 0`, a clip item of size 15 and
`ammo = 40`, the claim predicts the result `floor(40 / 15) = 2`, but the
source first divides by `rearmRate` unconditionally, which is undefined for a
zero divisor, so `getClipsLoaded` does not produce that value. -/
theorem getClipsLoaded_claim_fails_at_zero_rearmRate :
    getClipsLoaded wZeroRate = none ∧
      getClipsLoaded wZeroRate ≠ some ((40 : Int).fdiv 15) := by
  refine ⟨rfl, by decide⟩

/-- C9 (amended with `rearmRate ≠ 0`): provided `rearmRate` is nonzero,
`getClipsLoaded` returns `floor(ammo / rearmRate)` when no clip item with
positive clip size is configured, and `floor(ammo / clipItem.clipSize)` when
one is, ignoring `rearmRate`. -/
theorem getClipsLoaded_divisor_selection (w : CraftWeapon) (clip : RuleItem)
    (hrr : w.rules.rearmRate ≠ 0) :
    ((w.rules.clipItem = none ∨ w.rules.clipItem = some clip ∧ clip.clipSize ≤ 0) →
      getClipsLoaded w = some (w.ammo.fdiv w.rules.rearmRate)) ∧
    (w.rules.clipItem = some clip → 0 < clip.clipSize →
      getClipsLoaded w = some (w.ammo.fdiv clip.clipSize)) := by
  unfold getClipsLoaded
  rw [if_neg hrr]
  constructor
  · rintro (h | ⟨h, hle⟩) <;> rw [h]
    simp [if_neg (by omega : ¬ clip.clipSize > 0)]
  · intro h hpos
    rw [h]
    simp [if_pos hpos]

/-- Witness for the amended C9 at the spec scenario: clip item of size 15 and
`ammo = 40` give 2 loaded clips, ignoring `rearmRate = 20`. -/
theorem getClipsLoaded_divisor_selection_witness :
    getClipsLoaded wCannon = some ((40 : Int).fdiv 15) ∧ ((40 : Int).fdiv 15) = 2 :=
  ⟨(getClipsLoaded_divisor_selection wCannon { clipSize := 15 } (by decide)).2
      rfl (by decide),
   by decide⟩

/-- C10: `getClipsLoaded` guards neither division: with `rearmRate = 0` (and
no clip item with positive clip size) the result is undefined, while any
weapon with `rearmRate > 0` gets a defined result — the unstated
precondition. -/
theorem getClipsLoaded_requires_positive_rearmRate (w v : CraftWeapon)
    (h0 : w.rules.rearmRate = 0)
    (hnoclip : ∀ clip, w.rules.clipItem = some clip → clip.clipSize ≤ 0)
    (hpos : 0 < v.rules.rearmRate) :
    getClipsLoaded w = none ∧ (getClipsLoaded v).isSome = true := by
  constructor
  · unfold getClipsLoaded
    rw [if_pos h0]
  · unfold getClipsLoaded
    rw [if_neg (by omega)]
    cases hc : v.rules.clipItem with
    | none => simp
    | some clip => simp only []; split_ifs <;> simp

/-- Witness for C10: the `rearmRate = 0` configuration without clip item has
an undefined clip count, the `rearmRate = 20` one has a defined one. -/
theorem getClipsLoaded_requires_positive_rearmRate_witness :
    getClipsLoaded wZeroRateNoClip = none ∧ (getClipsLoaded wStingray).isSome = true :=
  getClipsLoaded_requires_positive_rearmRate wZeroRateNoClip wStingray rfl
    (fun clip h => Option.noConfusion h) (by decide)
